import Mathlib

/-!
Verification of the text-generation session manager specified for the
Data-Science-Projects repository.  The repository consists of two notebooks
(Falcon text-generation via a transformers pipeline, Mistral-7B inference with
a BitsAndBytes quantization config).  The spec reconstructs the session core
that these notebooks realize (GenerationSession with `configure` and
`generate`); that core is not present as code under src/, so its operations
are modelled here from the spec, while the concrete notebook cell dataflow
(keyword arguments of the generation calls, the print loop, the unused
`stop_token_ids` list) is embedded from the notebook sources.
-/

namespace GenSession

/-- Modelled from the spec: `GenerationRequest` — prompt (non-empty text),
sampling flag, top_k (positive integer or absent), max_new_tokens (positive
integer), num_return_sequences (positive integer), end-of-sequence token id
(optional).  The concrete field values used by the Falcon notebook are
`prompt = "who invented computers"`, `do_sample = true`, `top_k = 10`,
`num_return_sequences = 1`, `eos_token_id = tokenizer.eos_token_id`. -/
structure GenerationRequest where
  prompt : String
  do_sample : Bool
  top_k : Option Nat
  max_new_tokens : Nat
  num_return_sequences : Nat
  eos_token_id : Option Nat
deriving Repr, DecidableEq

/-- Modelled from the spec: `QuantizationProfile` — bit width (4 or 8),
compute data type (e.g. bfloat16), double-quantization flag, quant type tag
(e.g. "nf4").  The Mistral notebook builds the concrete instance
`BitsAndBytesConfig(load_in_4bit=True, bnb_4bit_use_double_quant=True,
bnb_4bit_quant_type="nf4", bnb_4bit_compute_dtype=torch.bfloat16)`. -/
structure QuantizationProfile where
  bit_width : Nat
  compute_dtype : String
  double_quant : Bool
  quant_type : String
deriving Repr, DecidableEq

/-- Modelled from the spec: the error taxonomy `ConfigError` for invalid
quantization profiles at setup. -/
inductive ConfigError where
  | badBitWidth
  | unknownQuantType
deriving Repr, DecidableEq

/-- Modelled from the spec: the quant type tags recognized by the
configuration step; "nf4" is the tag the Mistral notebook uses. -/
def knownQuantTags : List String := ["nf4", "fp4"]

/-- Modelled from the spec: `configure` rejects bit widths outside {4, 8}
and rejects unknown quant type tags; otherwise it succeeds. -/
def configure (p : QuantizationProfile) : Except ConfigError Unit :=
  if p.bit_width ≠ 4 ∧ p.bit_width ≠ 8 then
    Except.error ConfigError.badBitWidth
  else if p.quant_type ∉ knownQuantTags then
    Except.error ConfigError.unknownQuantType
  else
    Except.ok ()

/-- Modelled from the spec: the error taxonomy for `generate` —
`ValidationError` (bad request shape, before any expensive work),
`InterruptedError` (caller cancelled mid-generation), `BackendError`
(external capability failed). -/
inductive GenerationError where
  | validationError
  | interruptedError
  | backendError
deriving Repr, DecidableEq

/-- The tokenizer as seen by the session: an externally-known eos token id.
The Falcon notebook's tokenizer has eos id 11 (the captured notebook output
shows `Setting pad_token_id to eos_token_id:11`). -/
structure Tokenizer where
  eos_token_id : Nat
deriving Repr, DecidableEq

/-- Modelled from the spec: request validation — prompt must be non-empty,
num_return_sequences ≥ 1, max_new_tokens positive. -/
def validRequest (r : GenerationRequest) : Bool :=
  decide (r.prompt ≠ "") && decide (1 ≤ r.num_return_sequences)
    && decide (1 ≤ r.max_new_tokens)

/-- Modelled from the spec: normalization of ambiguous fields before
dispatch — if an end-of-sequence token id is not supplied, default to the
tokenizer's own eos id rather than failing; sampling-only fields (top_k)
are ignored (dropped) when sampling is disabled, not errors. -/
def normalize (tok : Tokenizer) (r : GenerationRequest) : GenerationRequest :=
  { r with
    eos_token_id := some (r.eos_token_id.getD tok.eos_token_id)
    top_k := if r.do_sample then r.top_k else none }

/-- Modelled from the spec: the opaque external `TextGenerator` capability.
It is a borrowed handle producing, for a dispatched request and a sequence
index, the continuation text appended after the prompt (the model-side
causal-continuation contract). -/
def TextGenerator : Type := GenerationRequest → Nat → String

/-- Modelled from the spec: one call into the external generation
capability — it returns `num_return_sequences` decoded strings, each the
prompt followed by a model-produced continuation (causal continuation
semantics, the model-side contract). -/
def runBackend (g : TextGenerator) (r : GenerationRequest) : List String :=
  (List.range r.num_return_sequences).map (fun i => r.prompt ++ g r i)

/-- Modelled from the spec: `GenerationResult` — ordered sequence of
produced completions. -/
structure GenerationResult where
  completions : List String
deriving Repr, DecidableEq

/-- Modelled from the spec: `generate` — validates the request (empty
prompt, zero num_return_sequences or zero max_new_tokens are
`ValidationError`s reported before dispatch), normalizes ambiguous fields,
then performs the single call into the external capability.  The second
component counts the calls made into the external capability during this
invocation. -/
def generate (g : TextGenerator) (tok : Tokenizer) (r : GenerationRequest) :
    Except GenerationError GenerationResult × Nat :=
  if r.prompt = "" then
    (Except.error GenerationError.validationError, 0)
  else if r.num_return_sequences = 0 then
    (Except.error GenerationError.validationError, 0)
  else if r.max_new_tokens = 0 then
    (Except.error GenerationError.validationError, 0)
  else
    (Except.ok ⟨runBackend g (normalize tok r)⟩, 1)

/-- From the Falcon notebook's result loop
`for seq in sequences: print(f"Result: \x7bseq['generated_text']\x7d")`:
each completion is emitted to the sink, in order, paired with the prompt of
the originating request. -/
def emitSink (prompt : String) : List String → List (String × String)
  | [] => []
  | c :: cs => (prompt, c) :: emitSink prompt cs

/-- Modelled from the spec: the session state machine
`Uninitialized -> Configured -> Generating -> {Completed, Interrupted,
Failed}`. -/
inductive SessionState where
  | uninitialized
  | configured
  | generating
  | completed
  | interrupted
  | failed
deriving Repr, DecidableEq

/-- Modelled from the spec: the events driving the session state machine —
configuring the session, a `generate` call arriving, the in-flight run
finishing (successfully or with a backend failure), the caller cancelling
mid-run, the caller acknowledging an interruption, and the session turning
to the next request. -/
inductive SessionEvent where
  | configureEv
  | startGenerate
  | finishOk
  | finishErr
  | cancel
  | acknowledge
  | nextRequest
deriving Repr, DecidableEq

/-- Modelled from the spec: the transition function of the session state
machine.  The boolean records whether the event started a new generation
run.  Cancelling an in-flight generation moves to `interrupted`; a
`generate` call in `interrupted` fails fast (no new run) until the caller
acknowledges, which returns the session to `configured`; from `completed`
or `failed` the session returns to `configured` for the next request
without acknowledgement. -/
def step : SessionState → SessionEvent → SessionState × Bool
  | SessionState.uninitialized, SessionEvent.configureEv =>
      (SessionState.configured, false)
  | SessionState.configured, SessionEvent.startGenerate =>
      (SessionState.generating, true)
  | SessionState.generating, SessionEvent.finishOk =>
      (SessionState.completed, false)
  | SessionState.generating, SessionEvent.finishErr =>
      (SessionState.failed, false)
  | SessionState.generating, SessionEvent.cancel =>
      (SessionState.interrupted, false)
  | SessionState.completed, SessionEvent.nextRequest =>
      (SessionState.configured, false)
  | SessionState.failed, SessionEvent.nextRequest =>
      (SessionState.configured, false)
  | SessionState.interrupted, SessionEvent.acknowledge =>
      (SessionState.configured, false)
  | s, _ => (s, false)

/-- Run a list of events from a state, collecting whether any event along
the way started a new generation run. -/
def runEvents : SessionState → List SessionEvent → SessionState × Bool
  | s, [] => (s, false)
  | s, e :: es =>
      let (s1, started) := step s e
      let (s2, startedLater) := runEvents s1 es
      (s2, started || startedLater)

end GenSession

namespace MistralNotebook

/-- From src/inference.ipynb: `stop_token_ids = [0]`, defined in the
tokenizer-setup cell. -/
def stop_token_ids : List Nat := [0]

/-- From src/inference.ipynb: the keyword arguments passed to
`model.generate(**model_input, max_new_tokens=200, do_sample=True)`. -/
structure GenerateKwargs where
  max_new_tokens : Nat
  do_sample : Bool
deriving Repr, DecidableEq

/-- From src/inference.ipynb: the fixed kwargs of the notebook's single
generation call. -/
def generateKwargs : GenerateKwargs :=
  { max_new_tokens := 200, do_sample := true }

/-- From src/inference.ipynb cell 16, the generation step:
`generated_ids = model.generate(**model_input, max_new_tokens=200,
do_sample=True)` followed by `decoded = tokenizer.batch_decode
(generated_ids)` and `print(decoded[0])`.  The model and the decoder are
opaque external capabilities, passed as functions; `stopIds` is the
`stop_token_ids` variable in scope at the call site — the source defines it
but never passes it to `model.generate`, whose stopping is governed only by
`max_new_tokens=200` and the model's own eos handling. -/
def generationStep (modelGenerate : List Nat → GenerateKwargs → List (List Nat))
    (batchDecode : List (List Nat) → List String)
    (model_input : List Nat) (stopIds : List Nat) : List String :=
  let generated_ids := modelGenerate model_input generateKwargs
  let decoded := batchDecode generated_ids
  decoded

end MistralNotebook

open GenSession MistralNotebook

/-- A constant external generator used to instantiate witnesses: every
returned sequence gets the same continuation text. -/
def constGen (s : String) : TextGenerator := fun _ _ => s

/-- The tokenizer of the Falcon notebook (eos token id 11, as shown in the
captured notebook output). -/
def falconTokenizer : Tokenizer := ⟨11⟩

/-- The concrete request issued by the Falcon notebook cell:
`pipeline(prompt, max_length=5000, do_sample=True, top_k=10,
num_return_sequences=1, eos_token_id=tokenizer.eos_token_id)` with
`prompt = "who invented computers"`. -/
def falconRequest : GenerationRequest :=
  { prompt := "who invented computers"
    do_sample := true
    top_k := some 10
    max_new_tokens := 5000
    num_return_sequences := 1
    eos_token_id := some 11 }

/-- The Falcon request with the end-of-sequence token id left unsupplied. -/
def falconRequestNoEos : GenerationRequest :=
  { falconRequest with eos_token_id := none }

/-- The Falcon request with an empty prompt. -/
def emptyPromptRequest : GenerationRequest :=
  { falconRequest with prompt := "" }

/-- C1: for every valid GenerationRequest whose num_return_sequences field
equals N, a successful call to generate returns a GenerationResult
containing exactly N completions. -/
theorem generate_returns_num_return_sequences (g : TextGenerator)
    (tok : Tokenizer) (r : GenerationRequest) (res : GenerationResult)
    (hv : validRequest r = true)
    (h : (generate g tok r).1 = Except.ok res) :
    res.completions.length = r.num_return_sequences := by
  unfold generate at h
  split at h
  · simp at h
  · split at h
    · simp at h
    · split at h
      · simp at h
      · simp only [Prod.fst] at h
        cases h
        simp [runBackend, GenSession.normalize]

/-- Witness for C1 at the Falcon notebook's request. -/
theorem generate_returns_num_return_sequences_witness :
    (GenerationResult.mk ["who invented computers x"]).completions.length
      = falconRequest.num_return_sequences :=
  generate_returns_num_return_sequences (constGen " x") falconTokenizer
    falconRequest ⟨["who invented computers x"]⟩ (by decide) rfl

/-- C2: every completion of a successful GenerationResult starts with the
original prompt string supplied in the request (causal continuation). -/
theorem generate_completions_start_with_prompt (g : TextGenerator)
    (tok : Tokenizer) (r : GenerationRequest) (res : GenerationResult)
    (h : (generate g tok r).1 = Except.ok res) :
    ∀ c ∈ res.completions, ∃ t, c = r.prompt ++ t := by
  unfold generate at h
  split at h
  · simp at h
  · split at h
    · simp at h
    · split at h
      · simp at h
      · simp only [Prod.fst] at h
        cases h
        intro c hc
        simp only [runBackend, List.mem_map] at hc
        obtain ⟨i, _, hci⟩ := hc
        exact ⟨_, hci.symm⟩

/-- Witness for C2: the completion produced for the Falcon request starts
with its prompt. -/
theorem generate_completions_start_with_prompt_witness :
    ∃ t, "who invented computers x" = falconRequest.prompt ++ t :=
  generate_completions_start_with_prompt (constGen " x") falconTokenizer
    falconRequest ⟨["who invented computers x"]⟩ rfl
    "who invented computers x" (by simp)

/-- C3: for every GenerationRequest with an empty prompt, generate returns
a ValidationError and makes zero calls into the external capability. -/
theorem generate_empty_prompt_validation (g : TextGenerator)
    (tok : Tokenizer) (r : GenerationRequest) (h : r.prompt = "") :
    (generate g tok r).1 = Except.error GenerationError.validationError ∧
    (generate g tok r).2 = 0 := by
  unfold generate
  rw [if_pos h]
  exact ⟨rfl, rfl⟩

/-- Witness for C3 at the Falcon request with its prompt emptied. -/
theorem generate_empty_prompt_validation_witness :
    (generate (constGen " x") falconTokenizer emptyPromptRequest).1
      = Except.error GenerationError.validationError ∧
    (generate (constGen " x") falconTokenizer emptyPromptRequest).2 = 0 :=
  generate_empty_prompt_validation (constGen " x") falconTokenizer
    emptyPromptRequest rfl

/-- C4: configure succeeds exactly for bit widths in {4, 8} with a known
quant type tag; in particular a profile with bit width 5 is rejected with a
ConfigError. -/
theorem configure_accepts_exactly_valid_profiles (p : QuantizationProfile) :
    (configure p = Except.ok () ↔
      (p.bit_width = 4 ∨ p.bit_width = 8) ∧ p.quant_type ∈ knownQuantTags) ∧
    (p.bit_width = 5 → ∃ e, configure p = Except.error e) := by
  constructor
  · constructor
    · intro h
      unfold configure at h
      split at h
      · simp at h
      · split at h
        · simp at h
        · rename_i hbw hqt
          refine ⟨?_, not_not.mp hqt⟩
          by_cases h4 : p.bit_width = 4
          · exact Or.inl h4
          · by_cases h8 : p.bit_width = 8
            · exact Or.inr h8
            · exact absurd ⟨h4, h8⟩ hbw
    · rintro ⟨hbw, hqt⟩
      unfold configure
      have h1 : ¬(p.bit_width ≠ 4 ∧ p.bit_width ≠ 8) := by
        rcases hbw with h | h
        · exact fun hc => hc.1 h
        · exact fun hc => hc.2 h
      rw [if_neg h1, if_neg (not_not.mpr hqt)]
  · intro h5
    unfold configure
    rw [if_pos ⟨by omega, by omega⟩]
    exact ⟨ConfigError.badBitWidth, rfl⟩

/-- Witness for C4: the bit-width-5 variant of the Mistral notebook's
quantization profile is rejected. -/
theorem configure_accepts_exactly_valid_profiles_witness :
    ∃ e, configure ⟨5, "bfloat16", true, "nf4"⟩ = Except.error e :=
  (configure_accepts_exactly_valid_profiles ⟨5, "bfloat16", true, "nf4"⟩).2 rfl

/-- From `interrupted`, any event other than the caller's acknowledgement
leaves the session in `interrupted` and starts no run. -/
theorem step_interrupted_no_ack (e : SessionEvent)
    (h : e ≠ SessionEvent.acknowledge) :
    step SessionState.interrupted e = (SessionState.interrupted, false) := by
  cases e <;> simp_all [step]

/-- C5: cancelling an in-flight generation transitions the session to
`interrupted`; until the caller acknowledges, every subsequent event
sequence (in particular repeated generate calls) leaves the session in
`interrupted` with no new run started; acknowledgement returns the session
to `configured`; from `completed` and `failed` the session returns to
`configured` for the next request without acknowledgement. -/
theorem session_interrupt_protocol :
    step SessionState.generating SessionEvent.cancel
      = (SessionState.interrupted, false) ∧
    (∀ es : List SessionEvent, SessionEvent.acknowledge ∉ es →
      runEvents SessionState.interrupted es
        = (SessionState.interrupted, false)) ∧
    step SessionState.interrupted SessionEvent.acknowledge
      = (SessionState.configured, false) ∧
    step SessionState.completed SessionEvent.nextRequest
      = (SessionState.configured, false) ∧
    step SessionState.failed SessionEvent.nextRequest
      = (SessionState.configured, false) := by
  refine ⟨rfl, ?_, rfl, rfl, rfl⟩
  intro es hno
  induction es with
  | nil => rfl
  | cons e es ih =>
      have he : e ≠ SessionEvent.acknowledge := by
        intro hcontra
        exact hno (hcontra ▸ List.mem_cons_self e es)
      have hes : SessionEvent.acknowledge ∉ es :=
        fun hm => hno (List.mem_cons_of_mem e hm)
      simp [runEvents, step_interrupted_no_ack e he, ih hes]

/-- Witness for C5: two generate calls arriving after an interruption both
fail fast, leaving the session interrupted with no run started. -/
theorem session_interrupt_protocol_witness :
    runEvents SessionState.interrupted
      [SessionEvent.startGenerate, SessionEvent.startGenerate]
      = (SessionState.interrupted, false) :=
  session_interrupt_protocol.2.1
    [SessionEvent.startGenerate, SessionEvent.startGenerate] (by decide)

/-- C6: every invocation of generate makes at most one call into the
external generation capability, and on the dispatch path (a valid request)
exactly one call — never zero, never a retry. -/
theorem generate_single_backend_call (g : TextGenerator) (tok : Tokenizer)
    (r : GenerationRequest) :
    (generate g tok r).2 ≤ 1 ∧
    (validRequest r = true → (generate g tok r).2 = 1) := by
  constructor
  · unfold generate
    split
    · exact Nat.zero_le 1
    · split
      · exact Nat.zero_le 1
      · split
        · exact Nat.zero_le 1
        · exact Nat.le_refl 1
  · intro hv
    simp only [validRequest, Bool.and_eq_true, decide_eq_true_eq] at hv
    obtain ⟨⟨h1, h2⟩, h3⟩ := hv
    unfold generate
    rw [if_neg h1, if_neg (by omega), if_neg (by omega)]

/-- Witness for C6 at the Falcon request: exactly one backend call. -/
theorem generate_single_backend_call_witness :
    (generate (constGen " x") falconTokenizer falconRequest).2 = 1 :=
  (generate_single_backend_call (constGen " x") falconTokenizer
    falconRequest).2 (by decide)

/-- C7: when the end-of-sequence token id is absent from a valid request,
generate still succeeds and the request dispatched to the backend carries
the tokenizer's own eos id; when the field is supplied, the supplied value
is used. -/
theorem generate_eos_defaulting (g : TextGenerator) (tok : Tokenizer)
    (r : GenerationRequest) (hv : validRequest r = true) :
    (r.eos_token_id = none →
      (∃ res, (generate g tok r).1 = Except.ok res) ∧
      (GenSession.normalize tok r).eos_token_id = some tok.eos_token_id) ∧
    (∀ v, r.eos_token_id = some v →
      (GenSession.normalize tok r).eos_token_id = some v) := by
  simp only [validRequest, Bool.and_eq_true, decide_eq_true_eq] at hv
  obtain ⟨⟨h1, h2⟩, h3⟩ := hv
  constructor
  · intro hnone
    constructor
    · refine ⟨⟨runBackend g (GenSession.normalize tok r)⟩, ?_⟩
      unfold generate
      rw [if_neg h1, if_neg (by omega), if_neg (by omega)]
    · simp [GenSession.normalize, hnone]
  · intro v hsome
    simp [GenSession.normalize, hsome]

/-- Witness for C7 at the Falcon request with no eos id supplied: generate
succeeds and the tokenizer's eos id 11 is substituted. -/
theorem generate_eos_defaulting_witness :
    (∃ res, (generate (constGen " x") falconTokenizer falconRequestNoEos).1
      = Except.ok res) ∧
    (GenSession.normalize falconTokenizer falconRequestNoEos).eos_token_id
      = some falconTokenizer.eos_token_id :=
  (generate_eos_defaulting (constGen " x") falconTokenizer
    falconRequestNoEos (by decide)).1 rfl

/-- C8: with sampling disabled, the outcome of generate is independent of
the top_k field — two requests identical except in top_k produce the same
outcome — and the presence of top_k raises no error: a valid request still
succeeds. -/
theorem generate_ignores_top_k_without_sampling (g : TextGenerator)
    (tok : Tokenizer) (r1 r2 : GenerationRequest)
    (hs1 : r1.do_sample = false) (hs2 : r2.do_sample = false)
    (heq : { r1 with top_k := none } = { r2 with top_k := none }) :
    generate g tok r1 = generate g tok r2 ∧
    (validRequest r1 = true →
      ∃ res, (generate g tok r1).1 = Except.ok res) := by
  constructor
  · obtain ⟨p1, s1, k1, m1, n1, e1⟩ := r1
    obtain ⟨p2, s2, k2, m2, n2, e2⟩ := r2
    simp only at hs1 hs2
    subst hs1; subst hs2
    injection heq with hp hs hk hm hn he
    subst hp; subst hm; subst hn; subst he
    simp [generate, GenSession.normalize]
  · intro hv
    simp only [validRequest, Bool.and_eq_true, decide_eq_true_eq] at hv
    obtain ⟨⟨h1, h2⟩, h3⟩ := hv
    refine ⟨⟨runBackend g (GenSession.normalize tok r1)⟩, ?_⟩
    unfold generate
    rw [if_neg h1, if_neg (by omega), if_neg (by omega)]

/-- Two greedy (sampling-disabled) requests differing only in top_k, used
to witness C8. -/
def greedyRequestA : GenerationRequest :=
  { falconRequest with do_sample := false, max_new_tokens := 50 }

/-- The same greedy request with the top_k field absent. -/
def greedyRequestB : GenerationRequest :=
  { greedyRequestA with top_k := none }

/-- Witness for C8: the two greedy requests produce identical outcomes. -/
theorem generate_ignores_top_k_without_sampling_witness :
    generate (constGen " x") falconTokenizer greedyRequestA
      = generate (constGen " x") falconTokenizer greedyRequestB :=
  (generate_ignores_top_k_without_sampling (constGen " x") falconTokenizer
    greedyRequestA greedyRequestB rfl rfl rfl).1

/-- C9: every completion of a successful GenerationResult is written to the
caller-supplied sink paired with the prompt, in production order, none
omitted: the second projections of the emitted pairs are exactly the
completion list, and every emitted pair carries the request's prompt. -/
theorem sink_receives_all_completions (g : TextGenerator) (tok : Tokenizer)
    (r : GenerationRequest) (res : GenerationResult)
    (h : (generate g tok r).1 = Except.ok res) :
    (emitSink r.prompt res.completions).map Prod.snd = res.completions ∧
    ∀ pr ∈ emitSink r.prompt res.completions, pr.1 = r.prompt := by
  clear h
  obtain ⟨cs⟩ := res
  induction cs with
  | nil => exact ⟨rfl, by intro pr hpr; cases hpr⟩
  | cons c cs ih =>
      refine ⟨?_, ?_⟩
      · simpa [emitSink] using ih.1
      · intro pr hpr
        simp only [emitSink, List.mem_cons] at hpr
        rcases hpr with hpr | hpr
        · rw [hpr]
        · exact ih.2 pr hpr

/-- Witness for C9 at the Falcon request: the emitted pairs carry exactly
the produced completions. -/
theorem sink_receives_all_completions_witness :
    (emitSink falconRequest.prompt
      (GenerationResult.mk ["who invented computers x"]).completions).map
        Prod.snd
      = (GenerationResult.mk ["who invented computers x"]).completions :=
  (sink_receives_all_completions (constGen " x") falconTokenizer
    falconRequest ⟨["who invented computers x"]⟩ rfl).1

/-- C10: in the Mistral notebook, `stop_token_ids` is `[0]` and the
generation step's output is independent of it: the list is defined before
generation but never passed to `model.generate`, so for every value of the
list in scope the invocation (governed only by `max_new_tokens = 200` and
`do_sample = True`) produces the same result. -/
theorem mistral_output_independent_of_stop_token_ids :
    MistralNotebook.stop_token_ids = [0] ∧
    ∀ (modelGenerate : List Nat → GenerateKwargs → List (List Nat))
      (batchDecode : List (List Nat) → List String)
      (model_input s1 s2 : List Nat),
      generationStep modelGenerate batchDecode model_input s1
        = generationStep modelGenerate batchDecode model_input s2 :=
  ⟨rfl, fun _ _ _ _ _ => rfl⟩
